import Mathlib

/-!
# Verification of the stock-screener signal classifier and risk calculator

Shallow embedding of `stock_analyzer_daily_30min_trendchecks_reversiontomeanchecks.py`.

A bar table is a chronologically ascending `List Bar`.  OHLC prices are plain
rationals (always present in the provider's output); derived indicator columns
(EMA-200, Bollinger bands, band-width, ATR-14) are `Option ℚ`, with `none`
standing for a float NaN.  Comparisons against a possibly-NaN value follow
IEEE semantics: any comparison with NaN is false (`nanLt`, `nanGt`, `gtNan`,
`ltNan` below).  A table that the provider could not fetch is `none` at type
`Option (List Bar)`.
-/

/-!
The float arithmetic of the source is modelled by exact rational arithmetic.
Batteries marks `Rat.add`/`sub`/`mul`/`inv` `@[irreducible]`, which blocks
`decide`-style evaluation on concrete tables, so the embedding computes with
the `mkRat`-based operations below; `qadd_eq` … `qsum_eq` prove them equal to
the standard `ℚ` operations, and the theorems are stated with the standard
operations.
-/

/-- Addition on `ℚ`, computable by reduction. -/
def qadd (a b : ℚ) : ℚ := mkRat (a.num * b.den + b.num * a.den) (a.den * b.den)

/-- Subtraction on `ℚ`, computable by reduction. -/
def qsub (a b : ℚ) : ℚ := mkRat (a.num * b.den - b.num * a.den) (a.den * b.den)

/-- Multiplication on `ℚ`, computable by reduction. -/
def qmul (a b : ℚ) : ℚ := mkRat (a.num * b.num) (a.den * b.den)

/-- Inverse on `ℚ` (0 ↦ 0), computable by reduction. -/
def qinv (a : ℚ) : ℚ := Rat.divInt a.den a.num

/-- Division on `ℚ` (x/0 ↦ 0), computable by reduction. -/
def qdiv (a b : ℚ) : ℚ := qmul a (qinv b)

/-- Absolute value on `ℚ`, computable by reduction. -/
def qabs (a : ℚ) : ℚ := if a < 0 then Rat.neg a else a

/-- Sum of a list of rationals, computable by reduction. -/
def qsum (l : List ℚ) : ℚ := l.foldr qadd 0

theorem qadd_eq (a b : ℚ) : qadd a b = a + b := (Rat.add_def' a b).symm

theorem qsub_eq (a b : ℚ) : qsub a b = a - b := (Rat.sub_def' a b).symm

theorem qmul_eq (a b : ℚ) : qmul a b = a * b := by
  rw [qmul, Rat.mul_def, Rat.normalize_eq_mkRat]

theorem qinv_eq (a : ℚ) : qinv a = a⁻¹ := (Rat.inv_def a).symm

theorem qdiv_eq (a b : ℚ) : qdiv a b = a / b := by
  rw [qdiv, qmul_eq, qinv_eq, div_eq_mul_inv]

theorem qabs_eq (a : ℚ) : qabs a = |a| := by
  rw [qabs]
  split
  · next h => rw [abs_of_neg h]; rfl
  · next h => rw [abs_of_nonneg (not_lt.mp h)]

theorem qsum_eq (l : List ℚ) : qsum l = l.sum := by
  induction l with
  | nil => rfl
  | cons x xs ih => simp only [qsum, List.foldr, List.sum_cons] at ih ⊢; rw [ih, qadd_eq]

namespace StockAnalyzer

/-- The signal category set.  `analyze_signal` produces only the first six;
the Super Strong tiers are produced by the orchestrator (`confirm_ticker`). -/
inductive Signal where
  | InsufficientData
  | Hold
  | Buy
  | Sell
  | StrongBuy
  | StrongSell
  | SuperStrongBuy
  | SuperStrongSell
deriving DecidableEq

/-- One row of the feature provider's table: OHLC plus the indicator columns
appended by `get_data` (`EMA_200`, `BBM_20_2.0`, `BBU_20_2.0`, `BBL_20_2.0`,
`BB_WIDTH`, `ATRr_14`).  Indicator columns may be NaN (`none`). -/
structure Bar where
  Open : ℚ
  High : ℚ
  Low : ℚ
  Close : ℚ
  EMA_200 : Option ℚ
  BBM_20_2_0 : Option ℚ
  BBU_20_2_0 : Option ℚ
  BBL_20_2_0 : Option ℚ
  BB_WIDTH : Option ℚ
  ATRr_14 : Option ℚ
deriving DecidableEq

/-- A bar of NaNs, used only as the default of `List.getD` at indices that the
callers' guards make unreachable. -/
def dummyBar : Bar := ⟨0, 0, 0, 0, none, none, none, none, none, none⟩

/-- The bar `df.iloc[-1]`. -/
def latestBar (l : List Bar) : Bar := l.getD (l.length - 1) dummyBar

/-- The bar `df.iloc[-2]`. -/
def previousBar (l : List Bar) : Bar := l.getD (l.length - 2) dummyBar

/-- Python slice `l[-a:-1]`: positions `-a .. -2` (when `a ≤ len(l)`),
clamped at the front like Python when `a > len(l)`. -/
def slice_neg_m1 {α : Type*} (a : ℕ) (l : List α) : List α :=
  (l.drop (l.length - a)).dropLast

/-- Python slice `l[-a:-b]` for `0 < b ≤ a`, clamped like Python. -/
def slice_neg {α : Type*} (a b : ℕ) (l : List α) : List α :=
  (l.drop (l.length - a)).take ((l.length - b) - (l.length - a))

/-- Comparison `x < y` where `x` is a possibly-NaN Series value: NaN compares false. -/
def nanLt (x : Option ℚ) (y : ℚ) : Bool :=
  match x with
  | some v => decide (v < y)
  | none => false

/-- Comparison `x > y` where `x` is a possibly-NaN Series value: NaN compares false. -/
def nanGt (x : Option ℚ) (y : ℚ) : Bool :=
  match x with
  | some v => decide (y < v)
  | none => false

/-- Comparison `x > y` where `y` is a possibly-NaN Series value: NaN compares false. -/
def gtNan (x : ℚ) (y : Option ℚ) : Bool :=
  match y with
  | some v => decide (v < x)
  | none => false

/-- Comparison `x < y` where `y` is a possibly-NaN Series value: NaN compares false. -/
def ltNan (x : ℚ) (y : Option ℚ) : Bool :=
  match y with
  | some v => decide (x < v)
  | none => false

/-- Pandas `Series.quantile(q)` with the default linear interpolation, on the non-NaN
values `l`: sort ascending, `pos = (n-1)·q`, and interpolate between the order
statistics at `⌊pos⌋` and `⌊pos⌋+1`. -/
def pandas_quantile (l : List ℚ) (q : ℚ) : ℚ :=
  let s := l.insertionSort (fun a b => a ≤ b)
  let pos : ℚ := qmul (mkRat (l.length - 1 : ℕ) 1) q
  let i : ℕ := (Rat.floor pos).toNat
  let g : ℚ := qsub pos (mkRat (i : ℕ) 1)
  match s[i]?, s[i + 1]? with
  | some lo, some hi => qadd lo (qmul g (qsub hi lo))
  | some lo, none => lo
  | none, _ => 0

/-- The slope returned by `np.polyfit(x, ys, 1)` with `x = 0 .. n-1`:
ordinary least squares, `(n·Σxy − Σx·Σy) / (n·Σx² − (Σx)²)`. -/
def polyfit_slope (ys : List ℚ) : ℚ :=
  let n : ℚ := mkRat (ys.length : ℕ) 1
  let xs : List ℚ := (List.range ys.length).map (fun i => mkRat (i : ℕ) 1)
  let sx := qsum xs
  let sy := qsum ys
  let sxy := qsum ((xs.zip ys).map (fun p => qmul p.1 p.2))
  let sxx := qsum (xs.map (fun x => qmul x x))
  qdiv (qsub (qmul n sxy) (qmul sx sy)) (qsub (qmul n sxx) (qmul sx sx))

/-- Condition 1 of `analyze_signal`: the primary crossover trend. -/
def crossover_signal (middle_bb ema_200 : ℚ) : Signal :=
  if middle_bb > ema_200 then Signal.Buy
  else if middle_bb < ema_200 then Signal.Sell
  else Signal.Hold

/-- The window `df['BB_WIDTH'].iloc[-lookback_period:-1]` with `lookback_period = 120`. -/
def hist_bandwidth (l : List Bar) : List (Option ℚ) :=
  (slice_neg_m1 120 l).map Bar.BB_WIDTH

/-- The threshold `historical_bandwidth.quantile(0.20)`: pandas drops the NaNs, then takes
the 20th percentile with linear interpolation. -/
def squeeze_threshold (l : List Bar) : ℚ :=
  pandas_quantile ((hist_bandwidth l).filterMap id) (mkRat 1 5)

/-- Strong Signal Check 1 of `analyze_signal` (squeeze breakout): the two
early-return `if`s guarded by `is_squeeze_yesterday and not is_squeeze_today`;
`none` means the checks fall through. -/
def strong_check_1 (latest : Bar) (cs : Signal) (sqT sqY : Bool) : Option Signal :=
  if sqY && !sqT then
    if decide (cs = Signal.Buy) && gtNan latest.Close latest.BBU_20_2_0 then
      some Signal.StrongBuy
    else if decide (cs = Signal.Sell) && ltNan latest.Close latest.BBL_20_2_0 then
      some Signal.StrongSell
    else none
  else none

/-- Source variable `context_check_2` (trend slope): least-squares slope of Low (Buy) or High
(Sell) over `df.iloc[-60:-1]` against bar index. -/
def trend_slope_ok (l : List Bar) (cs : Signal) : Bool :=
  match cs with
  | Signal.Buy => decide (0 < polyfit_slope ((slice_neg_m1 60 l).map Bar.Low))
  | Signal.Sell => decide (polyfit_slope ((slice_neg_m1 60 l).map Bar.High) < 0)
  | _ => false

/-- Source condition `abs(middle_bb - ema_200) / ema_200 < 0.03`.  In the source these are
floats: when `ema_200` is exactly 0 the quotient is NaN or infinity, so the
comparison is false; the `ema_200 = 0` guard models that. -/
def is_near_ema (middle_bb ema_200 : ℚ) : Bool :=
  if ema_200 = 0 then false
  else decide (qdiv (qabs (qsub middle_bb ema_200)) ema_200 < mkRat 3 100)

/-- Source variable `context_check_3` (pullback to the 200 EMA): only evaluated when near the
EMA; compares the extreme Close of `df['Close'].iloc[-80:-20]` against
`ema_200 × 1.05` (Buy) or `ema_200 × 0.95` (Sell).  `max()`/`min()` of an
empty Series is NaN, hence the `Option`-valued comparison. -/
def pullback_ok (l : List Bar) (cs : Signal) (middle_bb ema_200 : ℚ) : Bool :=
  if is_near_ema middle_bb ema_200 then
    match cs with
    | Signal.Buy => nanGt (((slice_neg 80 20 l).map Bar.Close).max?) (qmul ema_200 (mkRat 105 100))
    | Signal.Sell => nanLt (((slice_neg 80 20 l).map Bar.Close).min?) (qmul ema_200 (mkRat 95 100))
    | _ => false
  else false

/-- Strong Signal Check 2 of `analyze_signal` (squeeze consolidation), the
body guarded by `is_squeeze_today`; `none` means fall through to the final
`return crossover_signal`. -/
def strong_check_2 (l : List Bar) (cs : Signal) (middle_bb ema_200 : ℚ) : Option Signal :=
  if trend_slope_ok l cs || pullback_ok l cs middle_bb ema_200 then
    some (if cs = Signal.Buy then Signal.StrongBuy else Signal.StrongSell)
  else none

/-- The body of `analyze_signal` after the insufficient-data guards, with the
latest bar's `BBM_20_2.0` and `EMA_200` already extracted. -/
def analyze_core (l : List Bar) (middle_bb ema_200 : ℚ) : Signal :=
  if (hist_bandwidth l).countP Option.isSome < 119 then crossover_signal middle_bb ema_200
  else
    match strong_check_1 (latestBar l) (crossover_signal middle_bb ema_200)
        (nanLt (latestBar l).BB_WIDTH (squeeze_threshold l))
        (nanLt (previousBar l).BB_WIDTH (squeeze_threshold l)) with
    | some s => s
    | none =>
      if nanLt (latestBar l).BB_WIDTH (squeeze_threshold l) then
        match strong_check_2 l (crossover_signal middle_bb ema_200) middle_bb ema_200 with
        | some s => s
        | none => crossover_signal middle_bb ema_200
      else crossover_signal middle_bb ema_200

/-- The classifier `analyze_signal(df)`: `none` models `df is None` (failed fetch). -/
def analyze_signal (df : Option (List Bar)) : Signal :=
  match df with
  | none => Signal.InsufficientData
  | some l =>
    if l.length < 120 then Signal.InsufficientData
    else
      match (latestBar l).BBM_20_2_0, (latestBar l).EMA_200, (previousBar l).BB_WIDTH with
      | some middle_bb, some ema_200, some _ => analyze_core l middle_bb ema_200
      | _, _, _ => Signal.InsufficientData

/-- The risk calculator `calculate_stop_loss(daily_df, direction)`.  In the source an undefined
(NaN) latest EMA-200 or ATR-14, or an empty swing window, would propagate NaN
into the result; the spec (§4.2) makes definedness a caller obligation, so the
embedding returns `none` in exactly those NaN cases.  An unrecognized
`direction` returns `None` in the source, `none` here. -/
def calculate_stop_loss (daily_df : List Bar) (direction : String) : Option ℚ :=
  match (latestBar daily_df).EMA_200, (latestBar daily_df).ATRr_14 with
  | some latest_ema_200, some latest_atr =>
    if direction = "Buy" then
      match ((slice_neg_m1 60 daily_df).map Bar.Low).min? with
      | some swing_low => some (max (qsub latest_ema_200 latest_atr) (qsub swing_low latest_atr))
      | none => none
    else if direction = "Sell" then
      match ((slice_neg_m1 60 daily_df).map Bar.High).max? with
      | some swing_high => some (min (qadd latest_ema_200 latest_atr) (qadd swing_high latest_atr))
      | none => none
    else none
  | _, _ => none

/-- The per-ticker outcome of the orchestration loop that the claims are
about: the final signal and the 30-minute confirmation status. -/
structure TickerResult where
  final_signal : Signal
  confirmation_status : String
deriving DecidableEq

/-- The confirmation logic of the per-ticker loop body in `run_streamlit_app`:
daily classification, conditional 30-minute re-classification, upgrade to
Super Strong on agreement.  `intraday_df = none` models a failed 30-minute
fetch (`get_data` returned `None`). -/
def confirm_ticker (daily_df intraday_df : Option (List Bar)) : TickerResult :=
  if analyze_signal daily_df = Signal.StrongBuy ∨ analyze_signal daily_df = Signal.StrongSell then
    match intraday_df with
    | some idf =>
      if analyze_signal daily_df = Signal.StrongBuy ∧
          analyze_signal (some idf) = Signal.StrongBuy then
        ⟨Signal.SuperStrongBuy, "Pass"⟩
      else if analyze_signal daily_df = Signal.StrongSell ∧
          analyze_signal (some idf) = Signal.StrongSell then
        ⟨Signal.SuperStrongSell, "Pass"⟩
      else ⟨analyze_signal daily_df, "Fail"⟩
    | none => ⟨analyze_signal daily_df, "30m Data Error"⟩
  else ⟨analyze_signal daily_df, "N/A"⟩

/-! ## Concrete tables used by witnesses and counterexamples -/

/-- A healthy bar: wide band-width 10, EMA 100, middle band 110. -/
def barH : Bar := ⟨100, 105, 95, 100, some 100, some 110, some 120, some 100, some 10, some 2⟩

/-- A squeezed bar: band-width 1, far below the window's 10s. -/
def barSq : Bar := ⟨100, 105, 95, 100, some 100, some 110, some 120, some 100, some 1, some 2⟩

/-- A breakout bar: close 130 above the upper band 120, band-width back to 10. -/
def barBreak : Bar := ⟨100, 135, 95, 130, some 100, some 110, some 120, some 100, some 10, some 2⟩

/-- Like `barH` but with NaN band-width. -/
def barNoW : Bar := ⟨100, 105, 95, 100, some 100, some 110, some 120, some 100, none, some 2⟩

/-- A breakout bar whose own band-width is NaN. -/
def barNaNLast : Bar := ⟨100, 135, 95, 130, some 100, some 110, some 120, some 100, none, some 2⟩

/-- Table of 120 bars: squeeze yesterday, breakout today — a `Strong Buy` via check 1. -/
def tableBreakout : List Bar := List.replicate 118 barH ++ [barSq, barBreak]

/-- Table of 120 bars with one NaN band-width inside the 119-bar window: the
squeeze logic is skipped. -/
def tableSkip : List Bar := List.replicate 117 barH ++ [barNoW, barSq, barBreak]

/-- Table of 120 bars: squeeze yesterday, NaN band-width today. -/
def tableNaNToday : List Bar := List.replicate 118 barH ++ [barSq, barNaNLast]

/-- History bar for the consolidation table: close 110, low 95. -/
def barC1 : Bar := ⟨100, 115, 95, 110, some 100, some 100, some 120, some 100, some 10, some 2⟩

/-- Latest bar of the consolidation table: squeezed (band-width 1), middle
band 101 within 3% of the EMA 100. -/
def barCLast : Bar := ⟨100, 105, 95, 100, some 100, some 101, some 120, some 100, some 1, some 2⟩

/-- Table of 120 bars: squeezed today, no breakout, near-EMA pullback — a `Strong Buy`
via check 2. -/
def tableConsolidation : List Bar := List.replicate 119 barC1 ++ [barCLast]

/-- History bar of the Scenario C table: Low 45, High 55. -/
def barSC : Bar := ⟨45, 55, 45, 50, none, none, none, none, none, none⟩

/-- Latest bar of the Scenario C table: EMA 50, ATR 2. -/
def barSCLast : Bar := ⟨50, 50, 50, 50, some 50, some 50, some 50, some 50, some 1, some 2⟩

/-- Table of 60 bars realizing the spec's Scenario C: ema200 = 50, atr = 2, 59-bar
swing low 45, swing high 55. -/
def tableScenC : List Bar := List.replicate 59 barSC ++ [barSCLast]

/-- A bar whose Low and High are 100. -/
def barHigh : Bar := ⟨100, 100, 100, 100, none, none, none, none, none, none⟩

/-- Latest bar with EMA 50 and ATR 0. -/
def barLowEMA : Bar := ⟨100, 100, 100, 100, some 50, none, none, none, none, some 0⟩

/-- A table whose swing low 100 sits far above the latest EMA 50. -/
def tableHighSwing : List Bar := [barHigh, barHigh, barLowEMA]

/-! ## Helper lemmas -/

theorem crossover_signal_cases (m e : ℚ) :
    crossover_signal m e = Signal.Buy ∨ crossover_signal m e = Signal.Sell ∨
      crossover_signal m e = Signal.Hold := by
  rw [crossover_signal]
  split_ifs <;> simp

theorem strong_check_1_cases (b : Bar) (cs : Signal) (t y : Bool) :
    strong_check_1 b cs t y = none ∨ strong_check_1 b cs t y = some Signal.StrongBuy ∨
      strong_check_1 b cs t y = some Signal.StrongSell := by
  rw [strong_check_1]
  split_ifs <;> simp

theorem strong_check_2_cases (l : List Bar) (cs : Signal) (m e : ℚ) :
    strong_check_2 l cs m e = none ∨ strong_check_2 l cs m e = some Signal.StrongBuy ∨
      strong_check_2 l cs m e = some Signal.StrongSell := by
  rw [strong_check_2]
  split_ifs <;> simp

theorem analyze_core_cases (l : List Bar) (m e : ℚ) :
    analyze_core l m e = crossover_signal m e ∨
      analyze_core l m e = Signal.StrongBuy ∨ analyze_core l m e = Signal.StrongSell := by
  rw [analyze_core]
  by_cases h1 : (hist_bandwidth l).countP Option.isSome < 119
  · rw [if_pos h1]
    exact Or.inl rfl
  rw [if_neg h1]
  rcases strong_check_1_cases (latestBar l) (crossover_signal m e)
      (nanLt (latestBar l).BB_WIDTH (squeeze_threshold l))
      (nanLt (previousBar l).BB_WIDTH (squeeze_threshold l)) with hc | hc | hc
  · simp only [hc]
    by_cases h2 : nanLt (latestBar l).BB_WIDTH (squeeze_threshold l) = true
    · rw [if_pos h2]
      rcases strong_check_2_cases l (crossover_signal m e) m e with hd | hd | hd <;> simp [hd]
    · rw [if_neg h2]
      exact Or.inl rfl
  · simp [hc]
  · simp [hc]

/-- Under the guards, `analyze_signal` is `analyze_core` on the extracted
latest middle band and EMA. -/
theorem analyze_signal_eq_core (l : List Bar) (m e pw : ℚ)
    (h120 : 120 ≤ l.length)
    (hm : (latestBar l).BBM_20_2_0 = some m)
    (he : (latestBar l).EMA_200 = some e)
    (hpw : (previousBar l).BB_WIDTH = some pw) :
    analyze_signal (some l) = analyze_core l m e := by
  rw [analyze_signal, if_neg (not_lt.mpr h120), hm, he, hpw]

theorem length_filterMap_id_eq_countP (l : List (Option ℚ)) :
    (l.filterMap id).length = l.countP Option.isSome := by
  induction l with
  | nil => rfl
  | cons x xs ih => cases x <;> simp [List.filterMap_cons, List.countP_cons, ih]

/-! ## The claims -/

set_option maxRecDepth 100000 in
/-- Claim C1, counterexample: on `tableHighSwing` the latest EMA-200 is 50 and
the latest ATR-14 is 0 ≥ 0, yet `calculate_stop_loss` for `Buy` returns 100,
which exceeds the EMA-200: the minimum Low of the window does matter. -/
theorem C1_counterexample :
    (latestBar tableHighSwing).EMA_200 = some 50 ∧
    (latestBar tableHighSwing).ATRr_14 = some 0 ∧
    (0 : ℚ) ≤ 0 ∧
    calculate_stop_loss tableHighSwing "Buy" = some 100 ∧
    ¬ (100 : ℚ) ≤ 50 := by
  decide

/-- Claim C1 as amended: for a daily table with latest EMA-200 `e` and latest
ATR-14 `a ≥ 0` defined, the `Buy` stop loss is `max (e − a) (sl − a)` for the
window's swing low `sl`, and it is ≤ `e` provided the ATR-padded swing low
`sl − a` does not itself exceed `e` (without that proviso the swing-low arm
can push the result above the EMA-200, as the counterexample shows). -/
theorem C1_stop_not_above_ema (l : List Bar) (e a sl : ℚ)
    (hE : (latestBar l).EMA_200 = some e)
    (hA : (latestBar l).ATRr_14 = some a)
    (ha : 0 ≤ a)
    (hsl : ((slice_neg_m1 60 l).map Bar.Low).min? = some sl)
    (hb : sl - a ≤ e) :
    calculate_stop_loss l "Buy" = some (max (e - a) (sl - a)) ∧
    max (e - a) (sl - a) ≤ e := by
  constructor
  · rw [calculate_stop_loss, hE, hA]
    simp [hsl, qsub_eq]
  · exact max_le (by linarith) hb

set_option maxRecDepth 100000 in
/-- Claim C1 witness: the amended claim at `tableScenC`. -/
theorem C1_witness :
    calculate_stop_loss tableScenC "Buy" = some (max ((50 : ℚ) - 2) ((45 : ℚ) - 2)) ∧
    max ((50 : ℚ) - 2) ((45 : ℚ) - 2) ≤ 50 :=
  C1_stop_not_above_ema tableScenC 50 2 45 (by decide) (by decide) (by decide)
    (by decide) (by norm_num)

/-- Claim C2: a missing table, a table of fewer than 120 bars, an undefined
latest middle band or EMA-200, or an undefined previous band-width all make
`analyze_signal` return the `Insufficient Data` sentinel (and, being a total
function, it raises nothing). -/
theorem C2_insufficient_data (df : Option (List Bar))
    (h : df = none ∨ ∃ l, df = some l ∧ (l.length < 120 ∨
      (latestBar l).BBM_20_2_0 = none ∨ (latestBar l).EMA_200 = none ∨
      (previousBar l).BB_WIDTH = none)) :
    analyze_signal df = Signal.InsufficientData := by
  rcases h with rfl | ⟨l, rfl, hl⟩
  · rfl
  rw [analyze_signal]
  by_cases h120 : l.length < 120
  · rw [if_pos h120]
  rw [if_neg h120]
  rcases hl with h1 | h2 | h3 | h4
  · exact absurd h1 h120
  · rw [h2]
  · cases hbbm : (latestBar l).BBM_20_2_0 <;> rw [h3]
  · cases hbbm : (latestBar l).BBM_20_2_0 <;> cases hema : (latestBar l).EMA_200 <;> rw [h4]

set_option maxRecDepth 100000 in
/-- Claim C2 witness: the unavailable table. -/
theorem C2_witness : analyze_signal none = Signal.InsufficientData :=
  C2_insufficient_data none (Or.inl rfl)

set_option maxRecDepth 100000 in
/-- Claim C3: for a daily table of at least 60 bars (so that positions
[-60,-2] are 59 bars) with defined latest EMA-200 `e` and ATR-14 `a`, the Buy
stop loss is `max (e − a) (sl − a)` for the window's minimum Low `sl` and the
Sell stop loss is `min (e + a) (sh + a)` for its maximum High `sh`; on the
Scenario C table (e = 50, a = 2, swing low 45) the Buy stop loss is 48. -/
theorem C3_stop_loss_formula (l : List Bar) (e a sl sh : ℚ)
    (h60 : 60 ≤ l.length)
    (hE : (latestBar l).EMA_200 = some e)
    (hA : (latestBar l).ATRr_14 = some a)
    (hsl : ((slice_neg_m1 60 l).map Bar.Low).min? = some sl)
    (hsh : ((slice_neg_m1 60 l).map Bar.High).max? = some sh) :
    (slice_neg_m1 60 l).length = 59 ∧
    calculate_stop_loss l "Buy" = some (max (e - a) (sl - a)) ∧
    calculate_stop_loss l "Sell" = some (min (e + a) (sh + a)) ∧
    calculate_stop_loss tableScenC "Buy" = some 48 := by
  refine ⟨?_, ?_, ?_, by decide⟩
  · rw [slice_neg_m1, List.length_dropLast, List.length_drop]
    omega
  · rw [calculate_stop_loss, hE, hA]
    simp [hsl, qsub_eq]
  · rw [calculate_stop_loss, hE, hA]
    simp [hsh, qadd_eq]

set_option maxRecDepth 100000 in
/-- Claim C3 witness: Scenario C evaluated through the theorem. -/
theorem C3_witness : calculate_stop_loss tableScenC "Buy" = some 48 :=
  (C3_stop_loss_formula tableScenC 50 2 45 55 (by decide) (by decide) (by decide)
    (by decide) (by decide)).2.2.2

/-- Claim C7: the base crossover signal is `Buy` exactly when the latest
middle band strictly exceeds the latest EMA-200, `Sell` exactly when it is
strictly below, and `Hold` exactly at equality. -/
theorem C7_crossover_trichotomy (m e : ℚ) :
    (crossover_signal m e = Signal.Buy ↔ e < m) ∧
    (crossover_signal m e = Signal.Sell ↔ m < e) ∧
    (crossover_signal m e = Signal.Hold ↔ m = e) := by
  rcases lt_trichotomy m e with h | h | h
  · have hcs : crossover_signal m e = Signal.Sell := by
      rw [crossover_signal, if_neg h.asymm, if_pos h]
    rw [hcs]
    exact ⟨⟨fun hs => absurd hs (by decide), fun hlt => absurd hlt h.asymm⟩,
      ⟨fun _ => h, fun _ => rfl⟩,
      ⟨fun hs => absurd hs (by decide), fun heq => absurd heq (ne_of_lt h)⟩⟩
  · have hcs : crossover_signal m e = Signal.Hold := by
      rw [crossover_signal, if_neg (by rw [h]; exact lt_irrefl e),
        if_neg (by rw [h]; exact lt_irrefl e)]
    rw [hcs]
    exact ⟨⟨fun hs => absurd hs (by decide), fun hlt => absurd (h ▸ hlt) (lt_irrefl e)⟩,
      ⟨fun hs => absurd hs (by decide), fun hlt => absurd (h ▸ hlt) (lt_irrefl e)⟩,
      ⟨fun _ => h, fun _ => rfl⟩⟩
  · have hcs : crossover_signal m e = Signal.Buy := by
      rw [crossover_signal, if_pos h]
    rw [hcs]
    exact ⟨⟨fun _ => h, fun _ => rfl⟩,
      ⟨fun hs => absurd hs (by decide), fun hlt => absurd hlt h.asymm⟩,
      ⟨fun hs => absurd hs (by decide), fun heq => absurd heq (ne_of_gt h)⟩⟩

/-- Case analysis of the squeeze-breakout check as a function of the two
squeeze flags, the crossover signal and the band comparisons. -/
theorem strong_check_1_spec (b : Bar) (cs : Signal) (t y : Bool) :
    (strong_check_1 b cs t y = some Signal.StrongBuy ↔
      y = true ∧ t = false ∧ cs = Signal.Buy ∧ gtNan b.Close b.BBU_20_2_0 = true) ∧
    (strong_check_1 b cs t y = some Signal.StrongSell ↔
      y = true ∧ t = false ∧ cs = Signal.Sell ∧ ltNan b.Close b.BBL_20_2_0 = true) ∧
    (y = true → t = true → strong_check_1 b cs t y = none) := by
  cases y <;> cases t <;> cases cs <;>
    cases hg : gtNan b.Close b.BBU_20_2_0 <;> cases hl : ltNan b.Close b.BBL_20_2_0 <;>
    simp [strong_check_1, hg, hl]

/-- The `analyze_signal` range helper: the classifier's result is always one
of its six sentinel/base/strong values. -/
theorem analyze_signal_mem_range (df : Option (List Bar)) :
    analyze_signal df ∈ [Signal.InsufficientData, Signal.Hold, Signal.Buy, Signal.Sell,
      Signal.StrongBuy, Signal.StrongSell] := by
  match df with
  | none => simp [analyze_signal]
  | some l =>
    by_cases h120 : l.length < 120
    · rw [analyze_signal, if_pos h120]
      simp
    cases hb : (latestBar l).BBM_20_2_0 with
    | none =>
      rw [analyze_signal, if_neg h120, hb]
      simp
    | some m =>
      cases he : (latestBar l).EMA_200 with
      | none =>
        rw [analyze_signal, if_neg h120, hb, he]
        simp
      | some e =>
        cases hp : (previousBar l).BB_WIDTH with
        | none =>
          rw [analyze_signal, if_neg h120, hb, he, hp]
          simp
        | some pw =>
          rw [analyze_signal_eq_core l m e pw (not_lt.mp h120) hb he hp]
          rcases analyze_core_cases l m e with hc | hc | hc <;> rw [hc]
          · rcases crossover_signal_cases m e with hx | hx | hx <;> rw [hx] <;> simp
          · simp
          · simp

/-- Python slicing: `l[-a:-1]` indexed at `k` is `l` indexed at `len − a + k`. -/
theorem slice_neg_m1_get (a : ℕ) (l : List Bar) (hal : a ≤ l.length) (k : ℕ)
    (hk : k < a - 1) : (slice_neg_m1 a l)[k]? = l[l.length - a + k]? := by
  have hlen : k < (l.drop (l.length - a)).length - 1 := by
    rw [List.length_drop]
    omega
  rw [slice_neg_m1, List.dropLast_eq_take, List.getElem?_take_of_lt hlen, List.getElem?_drop]

/-- Claim C4: past the guards and with a full band-width window, the breakout
check returns `Strong Buy` exactly when yesterday was squeezed, today is not,
the crossover signal is `Buy` and the latest close is above the upper band
(symmetrically `Strong Sell` below the lower band); it returns nothing when
both of the last two bars are squeezed; and whatever it returns is what
`analyze_signal` returns — it takes precedence over the consolidation check. -/
theorem C4_breakout_override (l : List Bar) (m e pw : ℚ)
    (h120 : 120 ≤ l.length)
    (hm : (latestBar l).BBM_20_2_0 = some m)
    (he : (latestBar l).EMA_200 = some e)
    (hpw : (previousBar l).BB_WIDTH = some pw)
    (hcount : (hist_bandwidth l).countP Option.isSome = 119) :
    (strong_check_1 (latestBar l) (crossover_signal m e)
        (nanLt (latestBar l).BB_WIDTH (squeeze_threshold l))
        (nanLt (previousBar l).BB_WIDTH (squeeze_threshold l)) = some Signal.StrongBuy ↔
      nanLt (previousBar l).BB_WIDTH (squeeze_threshold l) = true ∧
      nanLt (latestBar l).BB_WIDTH (squeeze_threshold l) = false ∧
      crossover_signal m e = Signal.Buy ∧
      gtNan (latestBar l).Close (latestBar l).BBU_20_2_0 = true) ∧
    (strong_check_1 (latestBar l) (crossover_signal m e)
        (nanLt (latestBar l).BB_WIDTH (squeeze_threshold l))
        (nanLt (previousBar l).BB_WIDTH (squeeze_threshold l)) = some Signal.StrongSell ↔
      nanLt (previousBar l).BB_WIDTH (squeeze_threshold l) = true ∧
      nanLt (latestBar l).BB_WIDTH (squeeze_threshold l) = false ∧
      crossover_signal m e = Signal.Sell ∧
      ltNan (latestBar l).Close (latestBar l).BBL_20_2_0 = true) ∧
    (nanLt (previousBar l).BB_WIDTH (squeeze_threshold l) = true →
      nanLt (latestBar l).BB_WIDTH (squeeze_threshold l) = true →
      strong_check_1 (latestBar l) (crossover_signal m e)
        (nanLt (latestBar l).BB_WIDTH (squeeze_threshold l))
        (nanLt (previousBar l).BB_WIDTH (squeeze_threshold l)) = none) ∧
    (∀ s, strong_check_1 (latestBar l) (crossover_signal m e)
        (nanLt (latestBar l).BB_WIDTH (squeeze_threshold l))
        (nanLt (previousBar l).BB_WIDTH (squeeze_threshold l)) = some s →
      analyze_signal (some l) = s) := by
  obtain ⟨hb, hs, hn⟩ := strong_check_1_spec (latestBar l) (crossover_signal m e)
    (nanLt (latestBar l).BB_WIDTH (squeeze_threshold l))
    (nanLt (previousBar l).BB_WIDTH (squeeze_threshold l))
  refine ⟨hb, hs, hn, fun s hs1 => ?_⟩
  rw [analyze_signal_eq_core l m e pw h120 hm he hpw, analyze_core,
    if_neg (by rw [hcount]; exact lt_irrefl 119)]
  simp only [hs1]

set_option maxRecDepth 400000 in
/-- Claim C4 witness: on `tableBreakout` the breakout check fires with
`Strong Buy` and `analyze_signal` returns it. -/
theorem C4_witness : analyze_signal (some tableBreakout) = Signal.StrongBuy :=
  (C4_breakout_override tableBreakout 110 100 1 (by decide) (by decide) (by decide)
    (by decide) (by decide)).2.2.2 Signal.StrongBuy (by decide)

/-- Claim C9: `analyze_signal` returns one of exactly the six values
`Insufficient Data`, `Hold`, `Buy`, `Sell`, `Strong Buy`, `Strong Sell`, and
in particular never a Super Strong value — those arise only from the
orchestrator (`confirm_ticker`). -/
theorem C9_signal_range (df : Option (List Bar)) :
    analyze_signal df ∈ [Signal.InsufficientData, Signal.Hold, Signal.Buy, Signal.Sell,
      Signal.StrongBuy, Signal.StrongSell] ∧
    analyze_signal df ≠ Signal.SuperStrongBuy ∧
    analyze_signal df ≠ Signal.SuperStrongSell := by
  have hmem := analyze_signal_mem_range df
  refine ⟨hmem, fun hcontra => ?_, fun hcontra => ?_⟩ <;> rw [hcontra] at hmem <;>
    revert hmem <;> decide

/-- Claim C10: when only the latest band-width is NaN (guards otherwise
passed), `analyze_signal` does not return `Insufficient Data`: the NaN
comparison makes `isSqueezeToday` false, and the result is the crossover
signal or a breakout-origin strong signal. -/
theorem C10_nan_bandwidth_today (l : List Bar) (m e pw : ℚ)
    (h120 : 120 ≤ l.length)
    (hm : (latestBar l).BBM_20_2_0 = some m)
    (he : (latestBar l).EMA_200 = some e)
    (hpw : (previousBar l).BB_WIDTH = some pw)
    (hnan : (latestBar l).BB_WIDTH = none) :
    analyze_signal (some l) ≠ Signal.InsufficientData ∧
    nanLt (latestBar l).BB_WIDTH (squeeze_threshold l) = false ∧
    (analyze_signal (some l) = crossover_signal m e ∨
      ∃ s, strong_check_1 (latestBar l) (crossover_signal m e)
          (nanLt (latestBar l).BB_WIDTH (squeeze_threshold l))
          (nanLt (previousBar l).BB_WIDTH (squeeze_threshold l)) = some s ∧
        analyze_signal (some l) = s) := by
  have hsqT : nanLt (latestBar l).BB_WIDTH (squeeze_threshold l) = false := by
    rw [hnan]
    rfl
  have hcore := analyze_signal_eq_core l m e pw h120 hm he hpw
  refine ⟨?_, hsqT, ?_⟩
  · rw [hcore]
    rcases analyze_core_cases l m e with hc | hc | hc <;> rw [hc]
    · rcases crossover_signal_cases m e with hx | hx | hx <;> rw [hx] <;> decide
    · decide
    · decide
  · by_cases hcnt : (hist_bandwidth l).countP Option.isSome < 119
    · left
      rw [hcore, analyze_core, if_pos hcnt]
    · rcases strong_check_1_cases (latestBar l) (crossover_signal m e)
          (nanLt (latestBar l).BB_WIDTH (squeeze_threshold l))
          (nanLt (previousBar l).BB_WIDTH (squeeze_threshold l)) with hc | hc | hc
      · left
        rw [hcore, analyze_core, if_neg hcnt]
        simp only [hc]
        simp [hsqT]
      · exact Or.inr ⟨Signal.StrongBuy, hc, by
          rw [hcore, analyze_core, if_neg hcnt]
          simp [hc]⟩
      · exact Or.inr ⟨Signal.StrongSell, hc, by
          rw [hcore, analyze_core, if_neg hcnt]
          simp [hc]⟩

set_option maxRecDepth 400000 in
/-- Claim C10 witness: `tableNaNToday` (latest band-width NaN, all other
guards satisfied) is not classified as `Insufficient Data`. -/
theorem C10_witness : analyze_signal (some tableNaNToday) ≠ Signal.InsufficientData :=
  (C10_nan_bandwidth_today tableNaNToday 110 100 1 (by decide) (by decide) (by decide)
    (by decide) (by decide)).1

/-! ## Consolidation-check helpers -/

theorem mkRat_3_100 : (mkRat 3 100 : ℚ) = 3 / 100 := by
  norm_num [Rat.mkRat_eq_divInt, Rat.divInt_eq_div]

theorem mkRat_105_100 : (mkRat 105 100 : ℚ) = 105 / 100 := by
  norm_num [Rat.mkRat_eq_divInt, Rat.divInt_eq_div]

theorem mkRat_95_100 : (mkRat 95 100 : ℚ) = 95 / 100 := by
  norm_num [Rat.mkRat_eq_divInt, Rat.divInt_eq_div]

theorem mkRat_3_5 : (mkRat 3 5 : ℚ) = 3 / 5 := by
  norm_num [Rat.mkRat_eq_divInt, Rat.divInt_eq_div]

theorem trend_slope_ok_buy (l : List Bar) :
    trend_slope_ok l Signal.Buy = true ↔
      0 < polyfit_slope ((slice_neg_m1 60 l).map Bar.Low) := by
  simp [trend_slope_ok]

theorem trend_slope_ok_sell (l : List Bar) :
    trend_slope_ok l Signal.Sell = true ↔
      polyfit_slope ((slice_neg_m1 60 l).map Bar.High) < 0 := by
  simp [trend_slope_ok]

theorem is_near_ema_iff (m e : ℚ) (hez : e ≠ 0) :
    (is_near_ema m e = true ↔ |m - e| / e < 3 / 100) := by
  rw [is_near_ema, if_neg hez]
  simp only [decide_eq_true_eq]
  rw [qsub_eq, qabs_eq, qdiv_eq, mkRat_3_100]

theorem pullback_ok_buy (l : List Bar) (m e mx : ℚ) (hez : e ≠ 0)
    (hmx : ((slice_neg 80 20 l).map Bar.Close).max? = some mx) :
    (pullback_ok l Signal.Buy m e = true ↔
      |m - e| / e < 3 / 100 ∧ e * (105 / 100) < mx) := by
  rw [pullback_ok]
  by_cases hne : is_near_ema m e = true
  · rw [if_pos hne, hmx]
    simp only [nanGt, decide_eq_true_eq, qmul_eq, mkRat_105_100]
    exact ⟨fun h => ⟨(is_near_ema_iff m e hez).mp hne, h⟩, fun h => h.2⟩
  · rw [if_neg hne]
    constructor
    · intro h
      exact absurd h (by decide)
    · intro h
      exact absurd ((is_near_ema_iff m e hez).mpr h.1) hne

theorem pullback_ok_sell (l : List Bar) (m e mn : ℚ) (hez : e ≠ 0)
    (hmn : ((slice_neg 80 20 l).map Bar.Close).min? = some mn) :
    (pullback_ok l Signal.Sell m e = true ↔
      |m - e| / e < 3 / 100 ∧ mn < e * (95 / 100)) := by
  rw [pullback_ok]
  by_cases hne : is_near_ema m e = true
  · rw [if_pos hne, hmn]
    simp only [nanLt, decide_eq_true_eq, qmul_eq, mkRat_95_100]
    exact ⟨fun h => ⟨(is_near_ema_iff m e hez).mp hne, h⟩, fun h => h.2⟩
  · rw [if_neg hne]
    constructor
    · intro h
      exact absurd h (by decide)
    · intro h
      exact absurd ((is_near_ema_iff m e hez).mpr h.1) hne

/-- Claim C5: with the latest bar squeezed and the breakout check not firing,
`analyze_signal` returns `Strong Buy` (crossover `Buy`) or `Strong Sell`
(crossover `Sell`) exactly when the least-squares slope over the 59 bars at
positions [-60,-2] is of the right sign, or — within 3% of the EMA-200 — the
extreme Close of the 60 bars at positions [-80,-20] is beyond 1.05× (Buy)
resp. 0.95× (Sell) the EMA-200; otherwise the crossover signal is returned. -/
theorem C5_consolidation_override (l : List Bar) (m e pw mx mn : ℚ)
    (h120 : 120 ≤ l.length)
    (hm : (latestBar l).BBM_20_2_0 = some m)
    (he : (latestBar l).EMA_200 = some e)
    (hpw : (previousBar l).BB_WIDTH = some pw)
    (hcount : (hist_bandwidth l).countP Option.isSome = 119)
    (hez : e ≠ 0)
    (hsqT : nanLt (latestBar l).BB_WIDTH (squeeze_threshold l) = true)
    (hbk : strong_check_1 (latestBar l) (crossover_signal m e)
        (nanLt (latestBar l).BB_WIDTH (squeeze_threshold l))
        (nanLt (previousBar l).BB_WIDTH (squeeze_threshold l)) = none)
    (hmx : ((slice_neg 80 20 l).map Bar.Close).max? = some mx)
    (hmn : ((slice_neg 80 20 l).map Bar.Close).min? = some mn) :
    (slice_neg_m1 60 l).length = 59 ∧
    (slice_neg 80 20 l).length = 60 ∧
    analyze_signal (some l) =
      (if crossover_signal m e = Signal.Buy ∧
          (0 < polyfit_slope ((slice_neg_m1 60 l).map Bar.Low) ∨
            (|m - e| / e < 3 / 100 ∧ e * (105 / 100) < mx)) then Signal.StrongBuy
      else if crossover_signal m e = Signal.Sell ∧
          (polyfit_slope ((slice_neg_m1 60 l).map Bar.High) < 0 ∨
            (|m - e| / e < 3 / 100 ∧ mn < e * (95 / 100))) then Signal.StrongSell
      else crossover_signal m e) := by
  refine ⟨?_, ?_, ?_⟩
  · rw [slice_neg_m1, List.length_dropLast, List.length_drop]
    omega
  · rw [slice_neg, List.length_take, List.length_drop]
    omega
  rw [analyze_signal_eq_core l m e pw h120 hm he hpw, analyze_core,
    if_neg (by rw [hcount]; exact lt_irrefl 119)]
  simp only [hbk]
  rw [if_pos hsqT]
  rcases crossover_signal_cases m e with hx | hx | hx <;> rw [hx]
  · have hor : (trend_slope_ok l Signal.Buy || pullback_ok l Signal.Buy m e) = true ↔
        (0 < polyfit_slope ((slice_neg_m1 60 l).map Bar.Low) ∨
          (|m - e| / e < 3 / 100 ∧ e * (105 / 100) < mx)) := by
      rw [Bool.or_eq_true, trend_slope_ok_buy, pullback_ok_buy l m e mx hez hmx]
    by_cases hP : (0 < polyfit_slope ((slice_neg_m1 60 l).map Bar.Low) ∨
        (|m - e| / e < 3 / 100 ∧ e * (105 / 100) < mx))
    · rw [strong_check_2, if_pos (hor.mpr hP)]
      simp [hP]
    · rw [strong_check_2, if_neg (fun hc => hP (hor.mp hc))]
      simp [hP]
  · have hor : (trend_slope_ok l Signal.Sell || pullback_ok l Signal.Sell m e) = true ↔
        (polyfit_slope ((slice_neg_m1 60 l).map Bar.High) < 0 ∨
          (|m - e| / e < 3 / 100 ∧ mn < e * (95 / 100))) := by
      rw [Bool.or_eq_true, trend_slope_ok_sell, pullback_ok_sell l m e mn hez hmn]
    by_cases hP : (polyfit_slope ((slice_neg_m1 60 l).map Bar.High) < 0 ∨
        (|m - e| / e < 3 / 100 ∧ mn < e * (95 / 100)))
    · rw [strong_check_2, if_pos (hor.mpr hP)]
      simp [hP]
    · rw [strong_check_2, if_neg (fun hc => hP (hor.mp hc))]
      simp [hP]
  · simp [strong_check_2, trend_slope_ok, pullback_ok]

set_option maxRecDepth 400000 in
/-- Claim C5 witness: `tableConsolidation` is squeezed today, the breakout
check does not fire, and the near-EMA pullback branch yields `Strong Buy`. -/
theorem C5_witness : analyze_signal (some tableConsolidation) = Signal.StrongBuy :=
  ((C5_consolidation_override tableConsolidation 101 100 10 110 110 (by decide) (by decide)
    (by decide) (by decide) (by decide) (by decide) (by decide) (by decide) (by decide)
    (by decide)).2.2).trans
    (by rw [if_pos ⟨by decide, Or.inr ⟨by norm_num, by norm_num⟩⟩])

set_option maxRecDepth 400000 in
/-- Claim C6: the band-width window is the 119 bars at positions −120..−2; if
fewer than 119 of them have a defined band-width, `analyze_signal` returns the
crossover signal unchanged; with a full window the squeeze threshold is the
20th percentile by linear interpolation between the 24th and 25th order
statistics, `s₂₃ + (3/5)·(s₂₄ − s₂₃)`; and the squeeze flags compare a
band-width strictly below the threshold, a NaN band-width comparing false. -/
theorem C6_squeeze_threshold_spec (l : List Bar) (m e pw : ℚ)
    (h120 : 120 ≤ l.length)
    (hm : (latestBar l).BBM_20_2_0 = some m)
    (he : (latestBar l).EMA_200 = some e)
    (hpw : (previousBar l).BB_WIDTH = some pw) :
    ((slice_neg_m1 120 l).length = 119 ∧
      ∀ k, k < 119 → (slice_neg_m1 120 l)[k]? = l[l.length - 120 + k]?) ∧
    ((hist_bandwidth l).countP Option.isSome < 119 →
      analyze_signal (some l) = crossover_signal m e) ∧
    ((hist_bandwidth l).countP Option.isSome = 119 →
      ∀ s23 s24,
        (((hist_bandwidth l).filterMap id).insertionSort (fun a b => a ≤ b))[23]? = some s23 →
        (((hist_bandwidth l).filterMap id).insertionSort (fun a b => a ≤ b))[24]? = some s24 →
        squeeze_threshold l = s23 + 3 / 5 * (s24 - s23)) ∧
    (∀ w t : ℚ, (nanLt (some w) t = true ↔ w < t) ∧ nanLt none t = false) := by
  refine ⟨⟨?_, fun k hk => slice_neg_m1_get 120 l h120 k (by omega)⟩, ?_, ?_, ?_⟩
  · rw [slice_neg_m1, List.length_dropLast, List.length_drop]
    omega
  · intro hlt
    rw [analyze_signal_eq_core l m e pw h120 hm he hpw, analyze_core, if_pos hlt]
  · intro hcount s23 s24 h23 h24
    have hlen : ((hist_bandwidth l).filterMap id).length = 119 := by
      rw [length_filterMap_id_eq_countP, hcount]
    rw [squeeze_threshold, pandas_quantile]
    simp only [hlen]
    have hfloor : ((Rat.floor (qmul (mkRat (119 - 1 : ℕ) 1) (mkRat 1 5)))).toNat = 23 := by
      decide
    have h24x : (((hist_bandwidth l).filterMap id).insertionSort
        (fun a b => a ≤ b))[23 + 1]? = some s24 := h24
    simp only [hfloor, h23, h24x]
    have hg : qsub (qmul (mkRat (119 - 1 : ℕ) 1) (mkRat 1 5)) (mkRat (23 : ℕ) 1) = mkRat 3 5 := by
      decide
    rw [hg, qadd_eq, qmul_eq, qsub_eq, mkRat_3_5]
  · intro w t
    constructor
    · simp [nanLt]
    · rfl

set_option maxRecDepth 400000 in
/-- Claim C6 witness: `tableSkip` has a NaN band-width inside the window, so
the strong-signal logic is skipped and the crossover signal (`Buy`) is
returned unchanged. -/
theorem C6_witness : analyze_signal (some tableSkip) = Signal.Buy :=
  ((C6_squeeze_threshold_spec tableSkip 110 100 1 (by decide) (by decide) (by decide)
    (by decide)).2.1 (by decide)).trans (by decide)

/-- Claim C8: the final per-ticker signal is `Super Strong Buy` exactly when
the daily classification is `Strong Buy` and the 30-minute classification is
independently `Strong Buy` (symmetrically for Sell); when the daily signal is
strong, the intraday table is present, and the intraday classification
disagrees, the confirmation status is `Fail` and the final signal stays the
daily one (no Super Strong signal). -/
theorem C8_super_strong_agreement (d i : Option (List Bar)) :
    ((confirm_ticker d i).final_signal = Signal.SuperStrongBuy ↔
      analyze_signal d = Signal.StrongBuy ∧ analyze_signal i = Signal.StrongBuy) ∧
    ((confirm_ticker d i).final_signal = Signal.SuperStrongSell ↔
      analyze_signal d = Signal.StrongSell ∧ analyze_signal i = Signal.StrongSell) ∧
    (∀ t, i = some t →
      (analyze_signal d = Signal.StrongBuy ∨ analyze_signal d = Signal.StrongSell) →
      analyze_signal i ≠ analyze_signal d →
      (confirm_ticker d i).confirmation_status = "Fail" ∧
      (confirm_ticker d i).final_signal = analyze_signal d) := by
  have hd6 := analyze_signal_mem_range d
  have hdns : analyze_signal d ≠ Signal.SuperStrongBuy ∧
      analyze_signal d ≠ Signal.SuperStrongSell := by
    constructor <;> intro hcc <;> rw [hcc] at hd6 <;> revert hd6 <;> decide
  by_cases hd : analyze_signal d = Signal.StrongBuy ∨ analyze_signal d = Signal.StrongSell
  · cases i with
    | none =>
      have hrec : confirm_ticker d none = ⟨analyze_signal d, "30m Data Error"⟩ := by
        rw [confirm_ticker.eq_def, if_pos hd]
      rw [hrec]
      refine ⟨⟨fun hf => absurd hf hdns.1, fun hr => ?_⟩,
        ⟨fun hf => absurd hf hdns.2, fun hr => ?_⟩, fun t hit => nomatch hit⟩
      · exact absurd hr.2 (by decide)
      · exact absurd hr.2 (by decide)
    | some t =>
      by_cases h1 : analyze_signal d = Signal.StrongBuy ∧
          analyze_signal (some t) = Signal.StrongBuy
      · have hrec : confirm_ticker d (some t) = ⟨Signal.SuperStrongBuy, "Pass"⟩ := by
          simp only [confirm_ticker]
          rw [if_pos hd, if_pos h1]
        rw [hrec]
        refine ⟨⟨fun _ => h1, fun _ => rfl⟩, ⟨fun hf => absurd hf (by decide), fun hr => ?_⟩,
          fun u hit hstrong hne => ?_⟩
        · rw [hr.1] at h1
          exact absurd h1.1 (by decide)
        · exact absurd (h1.2.trans h1.1.symm) hne
      · by_cases h2 : analyze_signal d = Signal.StrongSell ∧
            analyze_signal (some t) = Signal.StrongSell
        · have hrec : confirm_ticker d (some t) = ⟨Signal.SuperStrongSell, "Pass"⟩ := by
            simp only [confirm_ticker]
            rw [if_pos hd, if_neg h1, if_pos h2]
          rw [hrec]
          refine ⟨⟨fun hf => absurd hf (by decide), fun hr => ?_⟩, ⟨fun _ => h2, fun _ => rfl⟩,
            fun u hit hstrong hne => ?_⟩
          · rw [hr.1] at h2
            exact absurd h2.1 (by decide)
          · exact absurd (h2.2.trans h2.1.symm) hne
        · have hrec : confirm_ticker d (some t) = ⟨analyze_signal d, "Fail"⟩ := by
            simp only [confirm_ticker]
            rw [if_pos hd, if_neg h1, if_neg h2]
          rw [hrec]
          refine ⟨⟨fun hf => ?_, fun hr => absurd hr h1⟩,
            ⟨fun hf => ?_, fun hr => absurd hr h2⟩, fun u hit hstrong hne => ⟨rfl, rfl⟩⟩
          · exact absurd hf hdns.1
          · exact absurd hf hdns.2
  · have hrec : confirm_ticker d i = ⟨analyze_signal d, "N/A"⟩ := by
      rw [confirm_ticker.eq_def, if_neg hd]
    rw [hrec]
    refine ⟨⟨fun hf => absurd hf hdns.1, fun hr => absurd (Or.inl hr.1) hd⟩,
      ⟨fun hf => absurd hf hdns.2, fun hr => absurd (Or.inr hr.1) hd⟩,
      fun t hit hstrong hne => absurd hstrong hd⟩

end StockAnalyzer
